import Mathlib

/-!
# Verification of the neurazor-backend dynamic-scoring subsystem

Shallow embedding of the scoring routes (`src/routes/scoring.routes.js`),
the games controller (`src/controllers/games.controller.js`) and the games
router (the unnamed route file exposing `POST /api/games/submit`).

Modelling conventions:
* JS numbers are embedded as `ℚ`; `undefined` arising from a missing object
  key is `Option.none`; JS arithmetic on `undefined` (which yields `NaN`) is
  modelled as `Option.none` as well.
* JS objects used as string-keyed maps are association lists
  `List (String × α)`; JS `for ... in` iterates keys in insertion order,
  which is the list order.  JS objects have unique keys, so theorems that
  need it assume `Nodup` on the key list.
* The formula services (`services/formulaEvaluator`, claims about
  `services/scoringCalculator`) are not part of the analysed sources, only
  their call sites are; the handlers are therefore parametrised over those
  functions, and every theorem quantifies over all of them (or, where
  noted, they are modelled from the spec).
* Database access through the supabase client returns `{data, error}`
  pairs; a handler run is parametrised by what the store returns /
  whether each write fails (an explicit oracle record), and the stored
  rows are threaded as explicit state.
-/

deriving instance DecidableEq for Except

/-- A variable environment: JS object mapping variable names to numbers
(`test_variables` / `test_data` in the request bodies). -/
abbrev Env : Type := List (String × ℚ)

/-- Property access `m[k]` on a JS object modelled as an association list:
the value at the first matching key, `none` for `undefined`. -/
def assocLookup {α : Type} (k : String) : List (String × α) → Option α
  | [] => none
  | p :: rest => if p.1 = k then some p.2 else assocLookup k rest

/-- `Math.max(0, Math.min(100, x))`, the per-competency clamp used by the
preview and compare pipelines. -/
def clampQ (x : ℚ) : ℚ := max 0 (min 100 x)

/-- JS `Math.round`: round half toward positive infinity. -/
def jsRound (q : ℚ) : ℤ := ⌊q + 1 / 2⌋

/-- `Math.round(x * 100) / 100`: round to two decimal places, half up. -/
def round2 (q : ℚ) : ℚ := ((jsRound (q * 100) : ℤ) : ℚ) / 100

/-- The `config` column of a `scoring_versions` row: the scoring
configuration handed to the pipelines (`settings` is opaque and unused by
the analysed code, so it is omitted). -/
structure ScoringConfig where
  competency_formulas : List (String × String)
  final_weights : List (String × ℚ)
  deriving DecidableEq, Repr

/-- A row of the `scoring_versions` table as used by the handlers. -/
structure VersionRow where
  id : Nat
  game_type : String
  version_name : String
  descr : String
  is_active : Bool
  created_by : String
  config : ScoringConfig
  deriving DecidableEq, Repr

/-- One competency entry of a compare response (`scores[name]` built in the
compare loop), carrying the formula text alongside the numbers. -/
structure CompareCompetency where
  raw : ℚ
  weight : ℚ
  weighted : ℚ
  formula : String
  deriving DecidableEq, Repr

/-- One per-version entry of the `comparisons` array. -/
structure Comparison where
  version_name : String
  version_id : Nat
  final_score : ℚ
  competencies : List (String × CompareCompetency)
  formulas : List (String × String)
  weights : List (String × ℚ)
  deriving DecidableEq, Repr

/-- One entry of `diff.weight_changes`.  `new_weight` is `none` when the
newer side lacks the key (`undefined` in JS); `change` is `none` when the
JS subtraction involved `undefined` and hence produced `NaN`. -/
structure WeightChange where
  competency : String
  old_weight : ℚ
  new_weight : Option ℚ
  change : Option ℚ
  deriving DecidableEq, Repr

/-- One entry of `diff.formula_changes`; `new_formula` is `none` when the
newer side lacks the key. -/
structure FormulaChange where
  competency : String
  old_formula : String
  new_formula : Option String
  deriving DecidableEq, Repr

/-- One element of the `differences` array built by
`calculateDifferences`. -/
structure Diff where
  from_version : String
  to_version : String
  score_change : ℚ
  weight_changes : List WeightChange
  formula_changes : List FormulaChange
  deriving DecidableEq, Repr

/-- The weight-comparison loop of `calculateDifferences`
(`for (const key in v1.weights) if (v1.weights[key] !== v2.weights[key])`):
it walks the keys of the OLD side only and reports those whose value on the
new side differs (a missing new-side value is `undefined`, which differs
from every number). -/
def weightChanges (w1 w2 : List (String × ℚ)) : List WeightChange :=
  w1.filterMap fun kw =>
    if assocLookup kw.1 w2 ≠ some kw.2 then
      some { competency := kw.1, old_weight := kw.2,
             new_weight := assocLookup kw.1 w2,
             change := (assocLookup kw.1 w2).map (· - kw.2) }
    else none

/-- The formula-comparison loop of `calculateDifferences`
(`for (const key in v1.formulas) if (v1.formulas[key] !== v2.formulas[key])`). -/
def formulaChanges (f1 f2 : List (String × String)) : List FormulaChange :=
  f1.filterMap fun kf =>
    if assocLookup kf.1 f2 ≠ some kf.2 then
      some { competency := kf.1, old_formula := kf.2,
             new_formula := assocLookup kf.1 f2 }
    else none

/-- The diff object built for one consecutive pair inside
`calculateDifferences`. -/
def mkDiff (v1 v2 : Comparison) : Diff :=
  { from_version := v1.version_name
    to_version := v2.version_name
    score_change := v2.final_score - v1.final_score
    weight_changes := weightChanges v1.weights v2.weights
    formula_changes := formulaChanges v1.formulas v2.formulas }

/-- `calculateDifferences` (scoring.routes.js): the loop
`for (let i = 1; i < comparisons.length; i++)` pairing `comparisons[i-1]`
with `comparisons[i]`. -/
def calculateDifferences : List Comparison → List Diff
  | v1 :: v2 :: rest => mkDiff v1 v2 :: calculateDifferences (v2 :: rest)
  | _ => []

/-- The per-version scoring loop of the compare handlers
(`for (const [name, formula] of Object.entries(...competency_formulas))`):
returns the `scores` object (in insertion order) together with the
accumulated `totalWeighted`.  `ev` is `formulaEvaluator.evaluate`, which is
not among the analysed sources and is kept abstract. -/
def compareLoop (ev : String → Option Env → ℚ) (weights : List (String × ℚ))
    (test_data : Option Env) : List (String × String) →
      List (String × CompareCompetency) × ℚ
  | [] => ([], 0)
  | (name, formula) :: rest =>
    let result := ev formula test_data
    let rawScore := clampQ result
    let weight := (assocLookup name weights).getD 0
    let weighted := rawScore * weight
    let tail := compareLoop ev weights test_data rest
    ((name, { raw := rawScore, weight := weight, weighted := weighted,
              formula := formula }) :: tail.1,
     weighted + tail.2)

/-- The per-version block of both compare handlers (scoring.routes.js and
games.controller.js are verbatim copies here): score every formula of the
version against `test_data` and assemble the comparison entry. -/
def computeComparison (ev : String → Option Env → ℚ) (v : VersionRow)
    (test_data : Option Env) : Comparison :=
  let body := compareLoop ev v.config.final_weights test_data
    v.config.competency_formulas
  { version_name := v.version_name
    version_id := v.id
    final_score := round2 body.2
    competencies := body.1
    formulas := v.config.competency_formulas
    weights := v.config.final_weights }

/-- One competency entry of a preview response (`scores[name]` built in the
preview loop). -/
structure PreviewCompetency where
  raw : ℚ
  weight : ℚ
  weighted : ℚ
  deriving DecidableEq, Repr

/-- The `data.scores` object of a successful preview response. -/
structure PreviewScores where
  final_score : ℚ
  competencies : List (String × PreviewCompetency)
  deriving DecidableEq, Repr

/-- The per-competency loop of `POST /api/scoring/preview` (identical in
scoring.routes.js and games.controller.js): test every formula against the
supplied variables; the first failure aborts the whole computation with the
handler's error string.  `tf` is `formulaEvaluator.testFormula`, abstract
here; `.ok v` models `{success: true, result: v}` and `.error e` models
`{success: false, error: e}`. -/
def previewLoop (tf : String → Env → Except String ℚ)
    (weights : List (String × ℚ)) (env : Env) :
    List (String × String) →
      Except String (List (String × PreviewCompetency) × ℚ)
  | [] => .ok ([], 0)
  | (name, formula) :: rest =>
    match tf formula env with
    | .error e => .error ("Formula error in " ++ name ++ ": " ++ e)
    | .ok v =>
      let rawScore := clampQ v
      let weight := (assocLookup name weights).getD 0
      let weighted := rawScore * weight
      match previewLoop tf weights env rest with
      | .error e => .error e
      | .ok tail =>
        .ok ((name, { raw := rawScore, weight := weight,
                      weighted := weighted }) :: tail.1,
             weighted + tail.2)

/-- `POST /api/scoring/preview` after the required-field guard: run the
loop over `formulas` and wrap `final_score = Math.round(totalWeighted*100)/100`
with the per-competency scores. -/
def previewScores (tf : String → Env → Except String ℚ)
    (formulas : List (String × String)) (weights : List (String × ℚ))
    (env : Env) : Except String PreviewScores :=
  match previewLoop tf weights env formulas with
  | .error e => .error e
  | .ok body => .ok { final_score := round2 body.2, competencies := body.1 }

/-- Responses of `POST /api/scoring/compare` in scoring.routes.js. -/
inductive CompareRouteResponse : Type
  /-- HTTP 400 with the given error string. -/
  | badRequest (msg : String)
  /-- HTTP 404 with the given error string. -/
  | notFound (msg : String)
  /-- HTTP 200 with `{comparisons, differences, test_data}`. -/
  | okCompare (comparisons : List Comparison) (differences : List Diff)
      (test_data : Option Env)
  /-- HTTP 500 produced by the catch-all handler. -/
  | serverError (msg : String)
  deriving DecidableEq, Repr

/-- The function-valued members ever assigned on the scoring routes
module's initial `module.exports` object (the object bound to the
module-scope `this` that the handler's arrow function closes over).  The
file assigns nothing to `exports`: `calculateDifferences` is declared as a
plain module-local function, and the final `module.exports = router`
rebinds the export slot without touching the original object.  So this
list is empty. -/
def scoringRoutesExports : List (String × (List Comparison → List Diff)) := []

/-- `POST /api/scoring/compare` (scoring.routes.js lines 140-220).
`fetched` is what the supabase query returns: `.error e` when `fetchError`
is set (the handler rethrows it into the catch-all), `.ok none` when
`versions` is null, `.ok (some vs)` otherwise.  After building
`comparisons` the handler evaluates `this.calculateDifferences(comparisons)`;
the member lookup on the module's `this` is modelled by `assocLookup` into
`scoringRoutesExports`, and a missing member makes the call throw the JS
`TypeError`, caught by the catch-all as a 500. -/
def compareRouteHandler (ev : String → Option Env → ℚ) (game_type : String)
    (version_ids : Option (List Nat)) (test_data : Option Env)
    (fetched : Except String (Option (List VersionRow))) :
    CompareRouteResponse :=
  if game_type = "" then
    .badRequest "Need at least 2 version IDs to compare"
  else
    match version_ids with
    | none => .badRequest "Need at least 2 version IDs to compare"
    | some ids =>
      if ids.length < 2 then
        .badRequest "Need at least 2 version IDs to compare"
      else
        match fetched with
        | .error e => .serverError e
        | .ok none => .notFound "Could not find all specified versions"
        | .ok (some versions) =>
          if versions.length < 2 then
            .notFound "Could not find all specified versions"
          else
            let comparisons :=
              versions.map fun v => computeComparison ev v test_data
            match assocLookup "calculateDifferences" scoringRoutesExports with
            | none =>
              .serverError "this.calculateDifferences is not a function"
            | some f => .okCompare comparisons (f comparisons) test_data

/-- Responses of the controller's `compareVersions`
(games.controller.js lines 204-278).  Note the success payload carries only
`comparisons` and `test_data`: this handler computes no differences at
all. -/
inductive CompareCtrlResponse : Type
  /-- HTTP 400 with the given error string. -/
  | badRequest (msg : String)
  /-- HTTP 404 with the given error string. -/
  | notFound (msg : String)
  /-- HTTP 200 with `{comparisons, test_data}`. -/
  | okCompare (comparisons : List Comparison) (test_data : Option Env)
  /-- HTTP 500 produced by the catch-all handler. -/
  | serverError (msg : String)
  deriving DecidableEq, Repr

/-- `compareVersions` (games.controller.js): same guards and per-version
scoring loop as the route handler, but the response has no differences
list. -/
def compareVersions (ev : String → Option Env → ℚ) (game_type : String)
    (version_ids : Option (List Nat)) (test_data : Option Env)
    (fetched : Except String (Option (List VersionRow))) :
    CompareCtrlResponse :=
  if game_type = "" then
    .badRequest "Need at least 2 version IDs to compare"
  else
    match version_ids with
    | none => .badRequest "Need at least 2 version IDs to compare"
    | some ids =>
      if ids.length < 2 then
        .badRequest "Need at least 2 version IDs to compare"
      else
        match fetched with
        | .error e => .serverError e
        | .ok none => .notFound "Could not find all specified versions"
        | .ok (some versions) =>
          if versions.length < 2 then
            .notFound "Could not find all specified versions"
          else
            .okCompare (versions.map fun v => computeComparison ev v test_data)
              test_data

/-- `formulaEvaluator.validateFormula`'s result as consumed by the save
handler (`{valid, error}`). -/
structure ValidationResult where
  valid : Bool
  error : String
  deriving DecidableEq, Repr

/-- The validation loop of `POST /api/scoring/save`: walk
`Object.entries(config.competency_formulas || {})` and return the first
`(name, validation.error)` whose validation is not valid, or `none` when
every formula validates. -/
def firstInvalid (validate : String → ValidationResult) :
    List (String × String) → Option (String × String)
  | [] => none
  | (name, formula) :: rest =>
    if (validate formula).valid then firstInvalid validate rest
    else some (name, (validate formula).error)

/-- What the external store does on the save handler's three database
calls.  `rpcFails` makes `get_next_version_name` return an error (which
the handler rethrows); `nextVersionName` is its value otherwise;
`deactivateFails` makes the deactivation update fail — its result object
is ignored by the handler, so a failure leaves the rows untouched and is
never observed; `insertFails` makes the insert fail; `newId` is the
generated id of the inserted row. -/
structure SaveOracle where
  rpcFails : Bool
  nextVersionName : String
  deactivateFails : Bool
  insertFails : Bool
  insertErr : String
  rpcErr : String
  newId : Nat
  deriving DecidableEq, Repr

/-- The deactivation update of the save handler:
`update({is_active:false}).eq('game_type', gt).eq('is_active', true)`. -/
def deactivateActive (gt : String) (rows : List VersionRow) :
    List VersionRow :=
  rows.map fun r =>
    if r.game_type = gt ∧ r.is_active then { r with is_active := false }
    else r

/-- The row inserted by the save handler: the submitted configuration
under the RPC-generated version name, with `is_active: true` and the
description defaulted to `Version <name>` when absent. -/
def insertedRow (game_type user_id description : String)
    (cfg : ScoringConfig) (o : SaveOracle) : VersionRow :=
  { id := o.newId
    game_type := game_type
    version_name := o.nextVersionName
    descr := if description = "" then "Version " ++ o.nextVersionName
      else description
    is_active := true
    created_by := user_id
    config := cfg }

/-- Responses of `POST /api/scoring/save`. -/
inductive SaveResponse : Type
  /-- HTTP 400 with the given error string. -/
  | badRequest (msg : String)
  /-- HTTP 200 with `{message, data: newVersion}`. -/
  | okSave (message : String) (newVersion : VersionRow)
  /-- HTTP 500 produced by the catch-all handler. -/
  | serverError (msg : String)
  deriving DecidableEq, Repr

/-- `POST /api/scoring/save` (scoring.routes.js lines 366-432), returning
the response together with the `scoring_versions` rows after the call.
`config = none` models a missing `config` field.  Validation runs before
any database call; then the RPC fetches the next version name, the
deactivation update runs with its result discarded, and the new row is
inserted with `is_active: true`. -/
def saveHandler (validate : String → ValidationResult) (game_type : String)
    (user_id : String) (description : String) (config : Option ScoringConfig)
    (o : SaveOracle) (rows : List VersionRow) :
    SaveResponse × List VersionRow :=
  if game_type = "" then
    (.badRequest "Missing required fields: game_type, config", rows)
  else
    match config with
    | none => (.badRequest "Missing required fields: game_type, config", rows)
    | some cfg =>
      match firstInvalid validate cfg.competency_formulas with
      | some nameErr =>
        (.badRequest ("Invalid formula for " ++ nameErr.1 ++ ": " ++
          nameErr.2), rows)
      | none =>
        if o.rpcFails then (.serverError o.rpcErr, rows)
        else
          let rows1 :=
            if o.deactivateFails then rows else deactivateActive game_type rows
          if o.insertFails then (.serverError o.insertErr, rows1)
          else
            let newRow := insertedRow game_type user_id description cfg o
            (.okSave ("Saved as " ++ o.nextVersionName) newRow,
             rows1 ++ [newRow])

/-- A row of the `test_sessions` table as inserted by the submit handler
(`status` is always the literal passed by the handler; the `completed_at`
wall-clock timestamp is outside the model). -/
structure SessionRow where
  id : Nat
  user_id : String
  game_type : String
  scoring_version_id : Nat
  status : String
  final_scores : PreviewScores
  deriving DecidableEq, Repr

/-- A row of the `action_receipts` table (the raw telemetry blob is kept
opaque as a string). -/
structure ReceiptRow where
  session_id : Nat
  raw_data : String
  deriving DecidableEq, Repr

/-- The persistent state touched by the submit handler. -/
structure SubmitState where
  sessions : List SessionRow
  receipts : List ReceiptRow
  deriving DecidableEq, Repr

/-- What the external store does on the submit handler's two inserts. -/
structure SubmitOracle where
  sessionInsertFails : Bool
  sessionErr : String
  receiptInsertFails : Bool
  receiptErr : String
  newSessionId : Nat
  deriving DecidableEq, Repr

/-- The `test_sessions` row inserted by the submit handler. -/
def insertedSession (user_id game_type : String) (cfg : VersionRow)
    (o : SubmitOracle) (scores : PreviewScores) : SessionRow :=
  { id := o.newSessionId
    user_id := user_id
    game_type := game_type
    scoring_version_id := cfg.id
    status := "completed"
    final_scores := scores }

/-- Responses of `POST /api/games/submit`. -/
inductive SubmitResponse : Type
  /-- HTTP 400 with the given error string. -/
  | badRequest (msg : String)
  /-- HTTP 404 with the given error string. -/
  | notFound (msg : String)
  /-- HTTP 200 with `{session_id, version_used, scores}`. -/
  | okSubmit (session_id : Nat) (version_used : String)
      (scores : PreviewScores)
  /-- HTTP 500 produced by the catch-all handler. -/
  | serverError (msg : String)
  deriving DecidableEq, Repr

/-- `POST /api/games/submit` (the unnamed games router; `submitGame` in
games.controller.js is a verbatim copy).  `calcScores` is
`scoringCalculator.calculateScores(game_type, config.config, raw_data)`.

Modelled from the spec: `services/scoringCalculator` is not among the
analysed sources; per §4.4/§7 a formula failure while scoring a
configuration aborts the whole pass with a `ScoringError` and returns no
partial result, which is embedded as `calcScores` returning `Except.error` —
the thrown error short-circuits to the handler's catch-all exactly like
the rethrown database errors do.  `activeCfg` is what the
`is_active = true` query returns (`none` covers both a query error and a
missing row, which the handler treats alike). -/
def submitGame (calcScores : String → ScoringConfig → String →
      Except String PreviewScores)
    (activeCfg : Option VersionRow) (game_type user_id raw_data : String)
    (o : SubmitOracle) (st : SubmitState) : SubmitResponse × SubmitState :=
  if game_type = "" ∨ user_id = "" ∨ raw_data = "" then
    (.badRequest "Missing required fields: game_type, user_id, raw_data", st)
  else
    match activeCfg with
    | none =>
      (.notFound ("No active scoring configuration found for " ++ game_type),
       st)
    | some cfg =>
      match calcScores game_type cfg.config raw_data with
      | .error e => (.serverError e, st)
      | .ok scores =>
        if o.sessionInsertFails then (.serverError o.sessionErr, st)
        else
          let session := insertedSession user_id game_type cfg o scores
          let st1 : SubmitState :=
            { st with sessions := st.sessions ++ [session] }
          if o.receiptInsertFails then (.serverError o.receiptErr, st1)
          else
            (.okSubmit session.id cfg.version_name scores,
             { st1 with receipts := st1.receipts ++
                 [{ session_id := session.id, raw_data := raw_data }] })

/-- Does a diff's weight-change list mention competency `k`? -/
def reportsWeightChange (wcs : List WeightChange) (k : String) : Bool :=
  wcs.any fun wc => wc.competency = k

/-- Is `k` present in the old side's weight map with a value that differs
from the new side's (absence on the new side counting as different)? -/
def oldSideDiffers (w1 w2 : List (String × ℚ)) (k : String) : Bool :=
  match assocLookup k w1 with
  | none => false
  | some q => decide (assocLookup k w2 ≠ some q)

/-- The sum of the `weighted` fields of a preview scores object. -/
def sumWeightedP (l : List (String × PreviewCompetency)) : ℚ :=
  (l.map fun p => p.2.weighted).sum

/-- Every `raw` field of a preview scores object lies in `[0, 100]`. -/
def rawsInRangeP (l : List (String × PreviewCompetency)) : Prop :=
  ∀ p ∈ l, 0 ≤ p.2.raw ∧ p.2.raw ≤ 100

/-- Every `raw` field of a comparison scores object lies in `[0, 100]`. -/
def rawsInRangeC (l : List (String × CompareCompetency)) : Prop :=
  ∀ p ∈ l, 0 ≤ p.2.raw ∧ p.2.raw ≤ 100

/-- Count of active `scoring_versions` rows for a game type. -/
def countActive (gt : String) (rows : List VersionRow) : Nat :=
  (rows.filter fun r => decide (r.game_type = gt) && r.is_active).length

/-- No row of the list is an active version for the game type. -/
def allInactive (gt : String) (rows : List VersionRow) : Bool :=
  rows.all fun r => !(decide (r.game_type = gt) && r.is_active)

/-- Concrete data for closed evaluations: an old scoring version. -/
def cmpRowA : VersionRow :=
  { id := 1
    game_type := "cognitive"
    version_name := "v1"
    descr := "first"
    is_active := false
    created_by := "op"
    config := { competency_formulas := [("focus", "accuracy")]
                final_weights := [("focus", 1)] } }

/-- Concrete data for closed evaluations: a newer scoring version. -/
def cmpRowB : VersionRow :=
  { id := 2
    game_type := "cognitive"
    version_name := "v2"
    descr := "second"
    is_active := true
    created_by := "op"
    config := { competency_formulas := [("focus", "accuracy * 2")]
                final_weights := [("focus", 1)] } }

/-- A comparison entry whose configuration has no weights at all. -/
def diffCompA : Comparison :=
  { version_name := "v1", version_id := 1, final_score := 0,
    competencies := [], formulas := [], weights := [] }

/-- A comparison entry whose configuration weights only competency `a`. -/
def diffCompB : Comparison :=
  { version_name := "v2", version_id := 2, final_score := 0,
    competencies := [], formulas := [], weights := [("a", 1)] }

/-- A validator that accepts everything (for concrete runs of the save
handler past its validation loop). -/
def okValidation : String → ValidationResult :=
  fun _ => { valid := true, error := "" }

/-- A row that is the currently active version for game type `g`. -/
def activeRowG : VersionRow :=
  { id := 1
    game_type := "g"
    version_name := "v1"
    descr := "d"
    is_active := true
    created_by := "u"
    config := { competency_formulas := [], final_weights := [] } }

/-- A save-handler run in which the store silently fails the deactivation
update (whose result the handler discards) while the RPC and the insert
succeed. -/
def saveRunDeactivateLost : SaveResponse × List VersionRow :=
  saveHandler okValidation "g" "u" "d"
    (some { competency_formulas := [], final_weights := [] })
    { rpcFails := false, nextVersionName := "v2", deactivateFails := true,
      insertFails := false, insertErr := "", rpcErr := "", newId := 2 }
    [activeRowG]

/-- Preview output used in closed witnesses: one competency scored 100. -/
def previewOut100 : PreviewScores :=
  { final_score := 100
    competencies := [("a", { raw := 100, weight := 1, weighted := 100 })] }

/-- Preview output used in closed witnesses: one competency scored 70. -/
def previewOut70 : PreviewScores :=
  { final_score := 70
    competencies := [("a", { raw := 70, weight := 1, weighted := 70 })] }

theorem assocLookup_of_mem {α : Type} {p : String × α} :
    ∀ {m : List (String × α)}, (m.map Prod.fst).Nodup → p ∈ m →
      assocLookup p.1 m = some p.2 := by
  intro m
  induction m with
  | nil => intro _ hp; cases hp
  | cons q t ih =>
    intro hnd hp
    simp only [List.map_cons, List.nodup_cons] at hnd
    rcases List.mem_cons.mp hp with hp | hp
    · subst hp
      simp [assocLookup]
    · have hne : q.1 ≠ p.1 := by
        intro h
        exact hnd.1 (h ▸ List.mem_map_of_mem Prod.fst hp)
      simp [assocLookup, hne, ih hnd.2 hp]

theorem weightChanges_self {w : List (String × ℚ)}
    (hnd : (w.map Prod.fst).Nodup) : weightChanges w w = [] := by
  rw [weightChanges, List.filterMap_eq_nil_iff]
  intro kw hkw
  rw [if_neg]
  simp [assocLookup_of_mem hnd hkw]

theorem formulaChanges_self {f : List (String × String)}
    (hnd : (f.map Prod.fst).Nodup) : formulaChanges f f = [] := by
  rw [formulaChanges, List.filterMap_eq_nil_iff]
  intro kf hkf
  rw [if_neg]
  simp [assocLookup_of_mem hnd hkf]

theorem reportsWeightChange_filterMap (w1 w2 : List (String × ℚ))
    (k : String) :
    reportsWeightChange (weightChanges w1 w2) k
      = w1.any fun kw =>
          decide (assocLookup kw.1 w2 ≠ some kw.2) && decide (kw.1 = k) := by
  induction w1 with
  | nil => simp [reportsWeightChange, weightChanges]
  | cons kw t ih =>
    simp only [weightChanges, List.filterMap_cons, List.any_cons] at ih ⊢
    by_cases hc : assocLookup kw.1 w2 ≠ some kw.2
    · rw [if_pos hc]
      simp only [reportsWeightChange, List.any_cons] at ih ⊢
      rw [ih]
      simp [hc]
    · rw [if_neg hc]
      simp only [reportsWeightChange] at ih ⊢
      rw [ih]
      simp [not_not.mp hc]

theorem any_keyMatch_eq_false {w2 : List (String × ℚ)} {k : String} :
    ∀ {t : List (String × ℚ)}, k ∉ t.map Prod.fst →
      (t.any fun kw =>
        decide (assocLookup kw.1 w2 ≠ some kw.2) && decide (kw.1 = k))
          = false := by
  intro t
  induction t with
  | nil => intro _; simp
  | cons kw t ih =>
    intro hk
    simp only [List.map_cons, List.mem_cons, not_or] at hk
    have hne : kw.1 ≠ k := fun h => hk.1 h.symm
    rw [List.any_cons, ih hk.2]
    simp [hne]

theorem reportsWeightChange_eq {w1 w2 : List (String × ℚ)} {k : String}
    (hnd : (w1.map Prod.fst).Nodup) :
    reportsWeightChange (weightChanges w1 w2) k = oldSideDiffers w1 w2 k := by
  rw [reportsWeightChange_filterMap]
  induction w1 with
  | nil => simp [oldSideDiffers, assocLookup]
  | cons kw t ih =>
    simp only [List.map_cons, List.nodup_cons] at hnd
    by_cases hk : kw.1 = k
    · subst hk
      by_cases hc : assocLookup kw.1 w2 ≠ some kw.2
      · simp [oldSideDiffers, assocLookup, hc]
      · simp only [List.any_cons, decide_eq_true_eq]
        rw [any_keyMatch_eq_false hnd.1]
        simp [oldSideDiffers, assocLookup, not_not.mp hc]
    · simp only [List.any_cons]
      have : (decide (kw.1 = k)) = false := by simp [hk]
      rw [this]
      simp only [Bool.and_false, Bool.false_or]
      rw [ih hnd.2]
      simp [oldSideDiffers, assocLookup, hk]

theorem jsRound_intCast (n : ℤ) : jsRound (n : ℚ) = n := by
  rw [jsRound, Int.floor_eq_iff]
  constructor
  · linarith
  · linarith

theorem round2_idem (q : ℚ) : round2 (round2 q) = round2 q := by
  rw [round2, round2, div_mul_cancel₀ _ (by norm_num : (100 : ℚ) ≠ 0),
    jsRound_intCast]

theorem clampQ_bounds (x : ℚ) : 0 ≤ clampQ x ∧ clampQ x ≤ 100 := by
  refine ⟨le_max_left 0 _, ?_⟩
  rw [clampQ]
  exact max_le (by norm_num) (min_le_left _ _)

theorem previewLoop_ok {tf : String → Env → Except String ℚ}
    {weights : List (String × ℚ)} {env : Env} :
    ∀ {fs : List (String × String)}
      {body : List (String × PreviewCompetency) × ℚ},
      previewLoop tf weights env fs = .ok body →
        body.2 = sumWeightedP body.1 ∧ rawsInRangeP body.1 := by
  intro fs
  induction fs with
  | nil =>
    intro body h
    simp only [previewLoop] at h
    cases h
    simp [sumWeightedP, rawsInRangeP]
  | cons nf t ih =>
    obtain ⟨name, formula⟩ := nf
    intro body h
    simp only [previewLoop] at h
    cases htf : tf formula env with
    | error e => rw [htf] at h; cases h
    | ok v =>
      rw [htf] at h
      simp only at h
      cases hrec : previewLoop tf weights env t with
      | error e => rw [hrec] at h; cases h
      | ok tail =>
        rw [hrec] at h
        simp only at h
        cases h
        obtain ⟨ih1, ih2⟩ := ih hrec
        refine ⟨?_, ?_⟩
        · simp [sumWeightedP] at ih1 ⊢
          rw [ih1]
        · intro p hp
          rcases List.mem_cons.mp hp with hp | hp
          · subst hp
            exact clampQ_bounds v
          · exact ih2 p hp

theorem compareLoop_raws (ev : String → Option Env → ℚ)
    (weights : List (String × ℚ)) (td : Option Env) :
    ∀ fs : List (String × String),
      ((compareLoop ev weights td fs).1.map fun p => (p.1, p.2.raw))
          = (fs.map fun p => (p.1, clampQ (ev p.2 td)))
        ∧ rawsInRangeC (compareLoop ev weights td fs).1 := by
  intro fs
  induction fs with
  | nil => simp [compareLoop, rawsInRangeC]
  | cons nf t ih =>
    obtain ⟨name, formula⟩ := nf
    simp only [compareLoop, List.map_cons]
    refine ⟨?_, ?_⟩
    · rw [ih.1]
    · intro p hp
      rcases List.mem_cons.mp hp with hp | hp
      · subst hp
        exact clampQ_bounds _
      · exact ih.2 p hp

theorem allInactive_deactivateActive (gt : String) :
    ∀ rows : List VersionRow, allInactive gt (deactivateActive gt rows) = true := by
  intro rows
  induction rows with
  | nil => rfl
  | cons r t ih =>
    simp only [deactivateActive, List.map_cons, allInactive, List.all_cons]
      at ih ⊢
    by_cases hr : r.game_type = gt ∧ r.is_active
    · rw [if_pos hr]
      simpa using ih
    · rw [if_neg hr]
      have hhead : (decide (r.game_type = gt) && r.is_active) = false := by
        by_cases hA : r.game_type = gt
        · cases hact : r.is_active
          · simp [hact]
          · exact absurd ⟨hA, by rw [hact]⟩ hr
        · simp [hA]
      simpa [hhead] using ih

theorem countActive_append (gt : String) (a b : List VersionRow) :
    countActive gt (a ++ b) = countActive gt a + countActive gt b := by
  simp [countActive, List.filter_append]

theorem countActive_eq_zero_of_allInactive (gt : String)
    (rows : List VersionRow) (h : allInactive gt rows = true) :
    countActive gt rows = 0 := by
  rw [countActive, List.length_eq_zero, List.filter_eq_nil_iff]
  rw [allInactive, List.all_eq_true] at h
  intro r hr
  have := h r hr
  simp only [Bool.not_eq_true'] at this
  simp [this]

theorem firstInvalid_isSome_iff (validate : String → ValidationResult) :
    ∀ fs : List (String × String),
      (firstInvalid validate fs).isSome
        ↔ ∃ p ∈ fs, (validate p.2).valid = false := by
  intro fs
  induction fs with
  | nil => simp [firstInvalid]
  | cons nf t ih =>
    obtain ⟨name, formula⟩ := nf
    by_cases hv : (validate formula).valid
    · simp only [firstInvalid, if_pos hv]
      rw [ih]
      constructor
      · rintro ⟨p, hp, hpe⟩
        exact ⟨p, List.mem_cons_of_mem _ hp, hpe⟩
      · rintro ⟨p, hp, hpe⟩
        rcases List.mem_cons.mp hp with hp | hp
        · subst hp
          rw [hpe] at hv
          cases hv
        · exact ⟨p, hp, hpe⟩
    · simp only [firstInvalid, if_neg hv, Option.isSome_some, true_iff]
      exact ⟨(name, formula), List.mem_cons_self _ _, by simpa using hv⟩

/-- C1: the compare operation never returns the `differences` list at all.
At a concrete well-formed request (two versions found, so N = 2) the route
responds 500 with the JS TypeError text, because the handler invokes
`this.calculateDifferences` while the module-scope `this` (the initial
`module.exports` object) has no such member; the adjacent module-local
`calculateDifferences` — the clearly intended callee — would have produced
exactly N−1 = 1 diff pairing configuration 1 with configuration 2 in input
order. -/
theorem C1_compare_route_throws :
    compareRouteHandler (fun _ _ => 50) "cognitive" (some [1, 2]) none
        (.ok (some [cmpRowA, cmpRowB]))
      = .serverError "this.calculateDifferences is not a function"
    ∧ (calculateDifferences
        ([cmpRowA, cmpRowB].map fun v =>
          computeComparison (fun _ _ => 50) v none)).map
        (fun d => (d.from_version, d.to_version)) = [("v1", "v2")] := by
  with_unfolding_all decide

/-- C2 counterexample: competency `a` is present only in the newer
configuration's weight mapping (value 1 versus absent), yet the diff's
weight-change list is empty — the claim that names present only in the
newer configuration are reported is false. -/
theorem C2_counterexample :
    (calculateDifferences [diffCompA, diffCompB]).map Diff.weight_changes
        = [[]]
      ∧ assocLookup "a" diffCompA.weights = none
      ∧ assocLookup "a" diffCompB.weights = some 1 := by
  decide

/-- C2 (amended): a pair's weight-change list mentions competency `k`
exactly when `k` is present in the OLDER configuration's weight mapping
with a value that differs from the newer side's (absence on the newer side
counting as a distinct value); names present only in the newer
configuration are never reported. -/
theorem C2_weight_changes_old_side_only (c1 c2 : Comparison) (k : String)
    (hnd : (c1.weights.map Prod.fst).Nodup) :
    reportsWeightChange (mkDiff c1 c2).weight_changes k
      = oldSideDiffers c1.weights c2.weights k :=
  reportsWeightChange_eq hnd

theorem C2_weight_changes_old_side_only_witness :
    (diffCompB.weights.map Prod.fst).Nodup
      ∧ reportsWeightChange (mkDiff diffCompB diffCompA).weight_changes "a"
          = oldSideDiffers diffCompB.weights diffCompA.weights "a" :=
  ⟨by decide, C2_weight_changes_old_side_only diffCompB diffCompA "a"
    (by decide)⟩

/-- C7: comparing a configuration against itself (any evaluator, any
optional shared test environment) yields a single diff with an empty
weight-change list, an empty formula-change list, and a score change of
exactly 0. -/
theorem C7_self_compare_empty_diff (ev : String → Option Env → ℚ)
    (v : VersionRow) (td : Option Env)
    (hw : (v.config.final_weights.map Prod.fst).Nodup)
    (hf : (v.config.competency_formulas.map Prod.fst).Nodup) :
    calculateDifferences
        [computeComparison ev v td, computeComparison ev v td]
      = [{ from_version := v.version_name, to_version := v.version_name,
           score_change := 0, weight_changes := [],
           formula_changes := [] }] := by
  simp only [calculateDifferences, mkDiff, computeComparison, sub_self]
  rw [weightChanges_self hw, formulaChanges_self hf]

theorem C7_self_compare_empty_diff_witness :
    calculateDifferences
        [computeComparison (fun _ _ => 50) cmpRowA (some [("accuracy", 80)]),
         computeComparison (fun _ _ => 50) cmpRowA (some [("accuracy", 80)])]
      = [{ from_version := "v1", to_version := "v1", score_change := 0,
           weight_changes := [], formula_changes := [] }] :=
  C7_self_compare_empty_diff (fun _ _ => 50) cmpRowA
    (some [("accuracy", 80)]) (by decide) (by decide)

/-- C4: for every test-formula function, evaluator, formula/weight maps and
environment, every `raw` score produced by the preview pipeline and by the
compare pipeline's per-version scoring lies in the closed interval
[0, 100], whatever value the underlying formula evaluated to. -/
theorem C4_raw_scores_clamped (tf : String → Env → Except String ℚ)
    (ev : String → Option Env → ℚ) (formulas : List (String × String))
    (weights : List (String × ℚ)) (env : Env) (r : PreviewScores)
    (v : VersionRow) (td : Option Env)
    (h : previewScores tf formulas weights env = .ok r) :
    rawsInRangeP r.competencies
      ∧ rawsInRangeC (computeComparison ev v td).competencies := by
  constructor
  · rw [previewScores] at h
    cases hl : previewLoop tf weights env formulas with
    | error e => rw [hl] at h; cases h
    | ok body =>
      rw [hl] at h
      simp only at h
      cases h
      exact (previewLoop_ok hl).2
  · exact (compareLoop_raws ev v.config.final_weights td
      v.config.competency_formulas).2

theorem C4_raw_scores_clamped_witness :
    rawsInRangeP previewOut100.competencies
      ∧ rawsInRangeC
          (computeComparison (fun _ _ => 250) cmpRowA none).competencies :=
  C4_raw_scores_clamped (fun _ _ => .ok 250) (fun _ _ => 250) [("a", "x")]
    [("a", 1)] [] previewOut100 cmpRowA none (by with_unfolding_all decide)

/-- C5: for every preview scoring result, `final_score` is exactly the sum
of the per-competency `weighted` values rounded to two decimal places with
half-up rounding (`Math.round(x*100)/100`), and that rounding is
idempotent on the result. -/
theorem C5_final_score_rounding (tf : String → Env → Except String ℚ)
    (formulas : List (String × String)) (weights : List (String × ℚ))
    (env : Env) (r : PreviewScores)
    (h : previewScores tf formulas weights env = .ok r) :
    r.final_score = round2 (sumWeightedP r.competencies)
      ∧ round2 r.final_score = r.final_score := by
  rw [previewScores] at h
  cases hl : previewLoop tf weights env formulas with
  | error e => rw [hl] at h; cases h
  | ok body =>
    rw [hl] at h
    simp only at h
    cases h
    constructor
    · show round2 body.2 = round2 (sumWeightedP body.1)
      rw [(previewLoop_ok hl).1]
    · exact round2_idem _

theorem C5_final_score_rounding_witness :
    previewOut70.final_score = round2 (sumWeightedP previewOut70.competencies)
      ∧ round2 previewOut70.final_score = previewOut70.final_score :=
  C5_final_score_rounding (fun _ _ => .ok 70) [("a", "x")] [("a", 1)] []
    previewOut70 (by with_unfolding_all decide)

/-- C6 counterexample: a compare request with no `test_data` still
evaluates every formula and returns the behavioral comparison.  At a
concrete request the controller's compare returns per-version scores
(`final_score` 50, obtained by evaluating the formulas against the absent
environment) and no structural-only payload; moreover the response depends
on the formula evaluator, which proves formulas were evaluated. -/
theorem C6_counterexample :
    compareVersions (fun _ _ => 50) "cognitive" (some [1, 2]) none
        (.ok (some [cmpRowA, cmpRowB]))
      = .okCompare [computeComparison (fun _ _ => 50) cmpRowA none,
          computeComparison (fun _ _ => 50) cmpRowB none] none
    ∧ (computeComparison (fun _ _ => 50) cmpRowA none).final_score = 50
    ∧ compareVersions (fun _ _ => 60) "cognitive" (some [1, 2]) none
        (.ok (some [cmpRowA, cmpRowB]))
      ≠ compareVersions (fun _ _ => 50) "cognitive" (some [1, 2]) none
        (.ok (some [cmpRowA, cmpRowB])) := by
  with_unfolding_all decide

/-- C6 (amended): when no test environment is supplied the compare
operation does NOT omit the behavioral comparison: it still evaluates
every formula of every fetched version against the absent environment and
returns the per-version scores — each competency's `raw` is the clamp of
the evaluator's output on its formula with `test_data = none`. -/
theorem C6_amended_no_env_still_evaluates (ev : String → Option Env → ℚ)
    (game_type : String) (ids : List Nat) (versions : List VersionRow)
    (v : VersionRow) (hgt : game_type ≠ "") (hids : 2 ≤ ids.length)
    (hvs : 2 ≤ versions.length) :
    compareVersions ev game_type (some ids) none (.ok (some versions))
        = .okCompare (versions.map fun w => computeComparison ev w none) none
      ∧ ((computeComparison ev v none).competencies.map fun p =>
            (p.1, p.2.raw))
          = (v.config.competency_formulas.map fun p =>
              (p.1, clampQ (ev p.2 none))) := by
  constructor
  · simp [compareVersions, hgt, Nat.not_lt.mpr hids, Nat.not_lt.mpr hvs]
  · simpa [computeComparison] using
      (compareLoop_raws ev v.config.final_weights none
        v.config.competency_formulas).1

theorem C6_amended_no_env_still_evaluates_witness :
    compareVersions (fun _ _ => 50) "cognitive" (some [7, 8]) none
        (.ok (some [cmpRowA, cmpRowB]))
        = .okCompare ([cmpRowA, cmpRowB].map fun w =>
            computeComparison (fun _ _ => 50) w none) none
      ∧ ((computeComparison (fun _ _ => 50) cmpRowA none).competencies.map
            fun p => (p.1, p.2.raw))
          = (cmpRowA.config.competency_formulas.map fun p =>
              (p.1, clampQ 50)) :=
  C6_amended_no_env_still_evaluates (fun _ _ => 50) "cognitive" [7, 8]
    [cmpRowA, cmpRowB] cmpRowA (by decide) (by decide) (by decide)

/-- C3: for every submit request with all fields present and an active
configuration found, if scoring the configuration fails then the handler
returns only the error: the response is the 500 carrying the scoring
error's message (no scores), and the stored sessions and receipts are
exactly as before — nothing is persisted. -/
theorem C3_submit_scoring_failure_aborts
    (calcScores : String → ScoringConfig → String →
      Except String PreviewScores)
    (cfg : VersionRow) (game_type user_id raw_data e : String)
    (o : SubmitOracle) (st : SubmitState)
    (hg : game_type ≠ "") (hu : user_id ≠ "") (hr : raw_data ≠ "")
    (hc : calcScores game_type cfg.config raw_data = .error e) :
    submitGame calcScores (some cfg) game_type user_id raw_data o st
      = (.serverError e, st) := by
  simp [submitGame, hg, hu, hr, hc]

theorem C3_submit_scoring_failure_aborts_witness :
    submitGame (fun _ _ _ => .error "Formula error in focus")
        (some cmpRowA) "cognitive" "u1" "blob"
        { sessionInsertFails := false, sessionErr := "",
          receiptInsertFails := false, receiptErr := "", newSessionId := 9 }
        { sessions := [], receipts := [] }
      = (.serverError "Formula error in focus",
         { sessions := [], receipts := [] }) :=
  C3_submit_scoring_failure_aborts (fun _ _ _ => .error "Formula error in focus")
    cmpRowA "cognitive" "u1" "blob" "Formula error in focus"
    { sessionInsertFails := false, sessionErr := "",
      receiptInsertFails := false, receiptErr := "", newSessionId := 9 }
    { sessions := [], receipts := [] }
    (by decide) (by decide) (by decide) rfl

/-- C10: for every submit request in which scoring succeeds, the session
insert succeeds and the raw-telemetry insert fails, the handler returns
the 500 carrying the receipt error, yet the session row (with its final
scores) has already been appended to the store and stays there — the
receipts are untouched and no rollback happens. -/
theorem C10_session_kept_on_receipt_failure
    (calcScores : String → ScoringConfig → String →
      Except String PreviewScores)
    (cfg : VersionRow) (game_type user_id raw_data : String)
    (o : SubmitOracle) (st : SubmitState) (scores : PreviewScores)
    (hg : game_type ≠ "") (hu : user_id ≠ "") (hr : raw_data ≠ "")
    (hc : calcScores game_type cfg.config raw_data = .ok scores)
    (hs : o.sessionInsertFails = false) (hrf : o.receiptInsertFails = true) :
    submitGame calcScores (some cfg) game_type user_id raw_data o st
      = (.serverError o.receiptErr,
         { st with sessions := st.sessions ++
             [insertedSession user_id game_type cfg o scores] }) := by
  simp [submitGame, hg, hu, hr, hc, hs, hrf]

theorem C10_session_kept_on_receipt_failure_witness :
    submitGame (fun _ _ _ => .ok previewOut70)
        (some cmpRowA) "cognitive" "u1" "blob"
        { sessionInsertFails := false, sessionErr := "",
          receiptInsertFails := true, receiptErr := "receipt down",
          newSessionId := 9 }
        { sessions := [], receipts := [] }
      = (.serverError "receipt down",
         { sessions := [insertedSession "u1" "cognitive" cmpRowA
             { sessionInsertFails := false, sessionErr := "",
               receiptInsertFails := true, receiptErr := "receipt down",
               newSessionId := 9 } previewOut70],
           receipts := [] }) :=
  C10_session_kept_on_receipt_failure (fun _ _ _ => .ok previewOut70)
    cmpRowA "cognitive" "u1" "blob"
    { sessionInsertFails := false, sessionErr := "",
      receiptInsertFails := true, receiptErr := "receipt down",
      newSessionId := 9 }
    { sessions := [], receipts := [] } previewOut70
    (by decide) (by decide) (by decide) rfl rfl rfl

/-- C8: for every save request with a game type and configuration present,
if some formula fails validation (`firstInvalid` finds one) the handler
rejects with a 400 naming that competency and its validation error, and
the stored version rows are returned unchanged — validation runs before
any persistence, for every store oracle. -/
theorem C8_save_rejects_invalid_formula (validate : String → ValidationResult)
    (game_type user_id description : String) (cfg : ScoringConfig)
    (o : SaveOracle) (rows : List VersionRow) (nameErr : String × String)
    (hg : game_type ≠ "")
    (hinv : firstInvalid validate cfg.competency_formulas = some nameErr) :
    saveHandler validate game_type user_id description (some cfg) o rows
      = (.badRequest ("Invalid formula for " ++ nameErr.1 ++ ": "
          ++ nameErr.2), rows) := by
  simp [saveHandler, hg, hinv]

theorem C8_save_rejects_invalid_formula_witness :
    saveHandler
        (fun f => if f = "bad" then { valid := false, error := "boom" }
          else { valid := true, error := "" })
        "g" "u" "d"
        (some { competency_formulas := [("ok1", "x"), ("a", "bad")],
                final_weights := [] })
        { rpcFails := false, nextVersionName := "v2", deactivateFails := false,
          insertFails := false, insertErr := "", rpcErr := "", newId := 2 }
        [activeRowG]
      = (.badRequest "Invalid formula for a: boom", [activeRowG]) :=
  C8_save_rejects_invalid_formula
    (fun f => if f = "bad" then { valid := false, error := "boom" }
      else { valid := true, error := "" })
    "g" "u" "d"
    { competency_formulas := [("ok1", "x"), ("a", "bad")], final_weights := [] }
    { rpcFails := false, nextVersionName := "v2", deactivateFails := false,
      insertFails := false, insertErr := "", rpcErr := "", newId := 2 }
    [activeRowG] ("a", "boom") (by decide) (by decide)

/-- C9 counterexample: the handler never checks the deactivation update's
result.  In a run where the store silently fails that update while the
RPC and the insert succeed, the handler still reports success, the
previously active version is NOT deactivated, and two versions of game
type `g` are active afterwards — refuting both "every previously active
version is deactivated" and "at most one version per game type is active
afterwards". -/
theorem C9_counterexample :
    saveRunDeactivateLost.1
        = .okSave "Saved as v2"
            (insertedRow "g" "u" "d"
              { competency_formulas := [], final_weights := [] }
              { rpcFails := false, nextVersionName := "v2",
                deactivateFails := true, insertFails := false,
                insertErr := "", rpcErr := "", newId := 2 })
      ∧ countActive "g" saveRunDeactivateLost.2 = 2
      ∧ activeRowG ∈ saveRunDeactivateLost.2
      ∧ activeRowG.is_active = true := by
  decide

/-- C9 (amended): for every save request whose validation passes and whose
three store operations all succeed — in particular the deactivate-all
update, whose result the handler never checks — the new version is
inserted with its active flag set, every previously active version of the
same game type has been deactivated first, and exactly one version of
that game type is active afterwards.  When the deactivation update fails
silently, the handler still reports success and a previously active
version can remain active alongside the new one. -/
theorem C9_amended_save_activation (validate : String → ValidationResult)
    (game_type user_id description : String) (cfg : ScoringConfig)
    (o : SaveOracle) (rows : List VersionRow)
    (hg : game_type ≠ "")
    (hv : firstInvalid validate cfg.competency_formulas = none)
    (hrpc : o.rpcFails = false) (hd : o.deactivateFails = false)
    (hi : o.insertFails = false) :
    saveHandler validate game_type user_id description (some cfg) o rows
        = (.okSave ("Saved as " ++ o.nextVersionName)
             (insertedRow game_type user_id description cfg o),
           deactivateActive game_type rows
             ++ [insertedRow game_type user_id description cfg o])
      ∧ (insertedRow game_type user_id description cfg o).is_active = true
      ∧ allInactive game_type (deactivateActive game_type rows) = true
      ∧ countActive game_type (deactivateActive game_type rows
          ++ [insertedRow game_type user_id description cfg o]) = 1 := by
  refine ⟨?_, rfl, allInactive_deactivateActive _ _, ?_⟩
  · simp [saveHandler, hg, hv, hrpc, hd, hi]
  · rw [countActive_append,
      countActive_eq_zero_of_allInactive _ _
        (allInactive_deactivateActive _ _)]
    simp [countActive, insertedRow]

theorem C9_amended_save_activation_witness :
    saveHandler okValidation "g" "u" "d"
        (some { competency_formulas := [], final_weights := [] })
        { rpcFails := false, nextVersionName := "v2",
          deactivateFails := false, insertFails := false,
          insertErr := "", rpcErr := "", newId := 2 }
        [activeRowG]
        = (.okSave "Saved as v2"
             (insertedRow "g" "u" "d"
               { competency_formulas := [], final_weights := [] }
               { rpcFails := false, nextVersionName := "v2",
                 deactivateFails := false, insertFails := false,
                 insertErr := "", rpcErr := "", newId := 2 }),
           deactivateActive "g" [activeRowG]
             ++ [insertedRow "g" "u" "d"
               { competency_formulas := [], final_weights := [] }
               { rpcFails := false, nextVersionName := "v2",
                 deactivateFails := false, insertFails := false,
                 insertErr := "", rpcErr := "", newId := 2 }])
      ∧ (insertedRow "g" "u" "d"
          { competency_formulas := [], final_weights := [] }
          { rpcFails := false, nextVersionName := "v2",
            deactivateFails := false, insertFails := false,
            insertErr := "", rpcErr := "", newId := 2 }).is_active = true
      ∧ allInactive "g" (deactivateActive "g" [activeRowG]) = true
      ∧ countActive "g" (deactivateActive "g" [activeRowG]
          ++ [insertedRow "g" "u" "d"
            { competency_formulas := [], final_weights := [] }
            { rpcFails := false, nextVersionName := "v2",
              deactivateFails := false, insertFails := false,
              insertErr := "", rpcErr := "", newId := 2 }]) = 1 :=
  C9_amended_save_activation okValidation "g" "u" "d"
    { competency_formulas := [], final_weights := [] }
    { rpcFails := false, nextVersionName := "v2",
      deactivateFails := false, insertFails := false,
      insertErr := "", rpcErr := "", newId := 2 }
    [activeRowG] (by decide) rfl rfl rfl rfl
